import Mathlib

/-!
Verification of the export logic of extract-dbaccess-info.

The development shallowly embeds the functions of src/dumpdbinfo.py and the
entry point src/main.py:

* Python runtime values that can appear in a DataFrame cell are modelled by
  the inductive type PyVal, and the per-cell conversion performed by
  dump_db_info_to_excel (lines 239-249 of src/dumpdbinfo.py) by coerceCell.
  Raising a Python exception is modelled by Except.error.
* A pandas DataFrame is modelled by its column names and its rows of PyVal
  cells (structure DataFrame); DataFrame.head by pandasHead.
* The workbook produced by dump_db_info_to_excel is modelled by
  buildWorkbook, which records for every sheet its title, its written cell
  grid and its hyperlinks.
* adjust_column_widths (lines 95-134) is modelled per column by
  adjustColumnWidth over exact rationals.
* The output-directory resolution shared by dump_db_info_to_csv (lines
  39-40) and dump_db_info_to_excel (lines 193-194) is modelled by
  resolveOutputDir over character lists.
* The call sites of src/main.py are modelled by PyCallSite together with the
  Python argument-binding rule callBindsOk.
-/

/-- A Python datetime.date: year, month, day. -/
structure PyDate where
  year : Nat
  month : Nat
  day : Nat
deriving DecidableEq, Repr

/-- A Python datetime.datetime: a date plus a time of day. -/
structure PyDateTime where
  date : PyDate
  hour : Nat
  minute : Nat
  second : Nat
deriving DecidableEq, Repr

/-- The Python runtime values that can appear in a DataFrame cell, as the
isinstance checks of dump_db_info_to_excel distinguish them.  pyStr carries a
Python str; pyOther carries any other object, represented by the string that
str(value) returns for it.  pyFloat carries the repr of the float, since the
coercion step never computes with floats, only passes them through. -/
inductive PyVal where
  | pyInt (n : Int)
  | pyFloat (valueRepr : String)
  | pyBool (b : Bool)
  | pyNone
  | pyTimestamp (dt : PyDateTime)
  | pyDateTime (dt : PyDateTime)
  | pyDate (d : PyDate)
  | pyStr (s : String)
  | pyOther (strForm : String)
deriving DecidableEq, Repr

/-- The value actually stored in a written spreadsheet cell. -/
inductive CellValue where
  | cInt (n : Int)
  | cFloat (valueRepr : String)
  | cBool (b : Bool)
  | cNone
  | cDateTime (dt : PyDateTime)
  | cDate (d : PyDate)
  | cText (s : String)
deriving DecidableEq, Repr

/-- Python exceptions that the embedded code can raise. -/
inductive PyError where
  | attributeError
  | typeError
deriving DecidableEq, Repr

/-- The textual form str(value) of a PyVal, used by the CSV writer and by
column sizing.  For dates it is the ISO form; the exact digits are irrelevant
to every property proved below. -/
def PyVal.strForm : PyVal → String
  | .pyInt n => toString n
  | .pyFloat r => r
  | .pyBool b => if b then "True" else "False"
  | .pyNone => "None"
  | .pyTimestamp dt => toString dt.date.year
  | .pyDateTime dt => toString dt.date.year
  | .pyDate d => toString d.year
  | .pyStr s => s
  | .pyOther s => s

/-- The cell conversion of dump_db_info_to_excel, lines 241-248 of
src/dumpdbinfo.py:

* `if isinstance(value, pd.Timestamp): cell_value = value.to_pydatetime()` —
  a pandas Timestamp is written as a native datetime;
* `elif isinstance(value, date): cell_value = value.date()` — this branch
  catches both datetime.datetime and datetime.date (datetime subclasses
  date).  On a datetime, value.date() returns its date part; on a plain
  date, there is no attribute date and Python raises AttributeError;
* `else: cell_value = str(value) if not isinstance(value, (int, float,
  type(None))) else value` — int, float, bool (a subclass of int) and None
  pass through unchanged, everything else is written as its str form. -/
def coerceCell : PyVal → Except PyError CellValue
  | .pyTimestamp dt => .ok (.cDateTime dt)
  | .pyDateTime dt => .ok (.cDate dt.date)
  | .pyDate _ => .error .attributeError
  | .pyInt n => .ok (.cInt n)
  | .pyFloat r => .ok (.cFloat r)
  | .pyBool b => .ok (.cBool b)
  | .pyNone => .ok .cNone
  | .pyStr s => .ok (.cText s)
  | .pyOther s => .ok (.cText s)

/-- A pandas DataFrame: ordered column names and rows of cell values. -/
structure DataFrame where
  columns : List String
  records : List (List PyVal)
deriving DecidableEq, Repr

/-- pandas DataFrame.head(n): the first n rows when n is nonnegative, and
all rows but the last |n| when n is negative. -/
def pandasHead (n : Int) (xs : List (List PyVal)) : List (List PyVal) :=
  if 0 ≤ n then xs.take n.toNat else xs.take (xs.length - (-n).toNat)

/-- A Python for-loop that applies a fallible step to every element and
propagates the first raised exception, collecting the results. -/
def mapExcept (f : α → Except ε β) : List α → Except ε (List β)
  | [] => .ok []
  | x :: xs =>
    match f x with
    | .error e => .error e
    | .ok y =>
      match mapExcept f xs with
      | .error e => .error e
      | .ok ys => .ok (y :: ys)

/-- An intra-workbook hyperlink as create_hyperlink places it: the cell it
sits in, the sheet and cell it points to, and its display text. -/
structure Hyperlink where
  atRow : Nat
  atCol : Nat
  targetSheet : String
  targetCell : String
  display : String
deriving DecidableEq, Repr

/-- One worksheet: its title, the grid of written cell values (row 1 first),
its hyperlinks and whether the header row is frozen. -/
structure Sheet where
  title : String
  rows : List (List CellValue)
  links : List Hyperlink
  freezeHeader : Bool
deriving DecidableEq, Repr

def emptySheet : Sheet := ⟨"", [], [], false⟩

/-- The workbook: its sheets in workbook order. -/
structure XlsxWorkbook where
  sheets : List Sheet
deriving DecidableEq, Repr

def XlsxWorkbook.indexSheet (wb : XlsxWorkbook) : Sheet :=
  wb.sheets.head?.getD emptySheet

def XlsxWorkbook.dataSheets (wb : XlsxWorkbook) : List Sheet :=
  wb.sheets.tail

/-- The header row of the index sheet (lines 210-214 of src/dumpdbinfo.py):
a Table column always, a Record Count column only when requested. -/
def indexHeaderRow (includeCount : Bool) : List CellValue :=
  if includeCount then [.cText "Table", .cText "Record Count"]
  else [.cText "Table"]

/-- One index-sheet body row (lines 217-220): the table name and, when
requested, len(dataframe), taken from the untruncated DataFrame. -/
def indexBodyRow (includeCount : Bool) (t : String × DataFrame) : List CellValue :=
  if includeCount then [.cText t.1, .cInt (t.2.records.length : Int)]
  else [.cText t.1]

/-- The hyperlinks created on the index sheet by the loop at lines 270-271:
for every row i from 2 to max_row, a link at cell A i whose target sheet is
the value written in that cell, pointing at its cell A1. -/
def indexLinksFrom (row : Nat) : List (String × DataFrame) → List Hyperlink
  | [] => []
  | t :: ts => ⟨row, 1, t.1, "A1", t.1⟩ :: indexLinksFrom (row + 1) ts

/-- The index sheet built at lines 205-226 and linked at lines 270-271. -/
def indexSheetOf (tables : List (String × DataFrame)) (includeCount : Bool) : Sheet :=
  { title := "Tables"
  , rows := indexHeaderRow includeCount :: tables.map (indexBodyRow includeCount)
  , links := indexLinksFrom 2 tables
  , freezeHeader := false }

/-- One data sheet, as built by the loop body at lines 228-266: the rows are
a header row of the column names followed by the rows of
dataframe.head(max_records_per_table), every cell passed through coerceCell
(dataframe_to_rows yields the column names as plain strings); the title is
the table name exactly as given to create_sheet; the only hyperlink is the
Return to Tables link placed in row 1 in the column right after the last
header column, pointing at cell A1 of the Tables sheet. -/
def dataSheetOf (cap : Int) (t : String × DataFrame) : Except PyError Sheet :=
  match mapExcept coerceCell (t.2.columns.map PyVal.pyStr) with
  | .error e => .error e
  | .ok headerRow =>
    match mapExcept (fun r => mapExcept coerceCell r) (pandasHead cap t.2.records) with
    | .error e => .error e
    | .ok dataRows =>
      .ok { title := t.1
          , rows := headerRow :: dataRows
          , links := [⟨1, t.2.columns.length + 1, "Tables", "A1", "Return to Tables"⟩]
          , freezeHeader := true }

/-- The workbook assembled by dump_db_info_to_excel (lines 199-271): the
index sheet made from the default active sheet, then one data sheet per
table in the insertion order of the mapping.  A Python exception raised
while writing cells aborts the whole export. -/
def buildWorkbook (tables : List (String × DataFrame)) (includeCount : Bool)
    (cap : Int) : Except PyError XlsxWorkbook :=
  match mapExcept (dataSheetOf cap) tables with
  | .error e => .error e
  | .ok ds => .ok ⟨indexSheetOf tables includeCount :: ds⟩

/-- A small concrete table used to evaluate the workbook construction. -/
def exUsersDf : DataFrame :=
  ⟨["id", "name"],
   [[.pyInt 1, .pyStr "Alice"], [.pyInt 2, .pyStr "Bob"], [.pyInt 3, .pyStr "Carol"]]⟩

def exTables : List (String × DataFrame) := [("Users", exUsersDf)]

/-- The workbook built from exTables with record counts on and a cap of 2,
so that truncation actually happens. -/
def exWb : XlsxWorkbook := (buildWorkbook exTables true 2).toOption.getD ⟨[]⟩

/-- A one-column, one-row table whose name carries characters that the
spreadsheet format forbids in sheet titles. -/
def c5Df : DataFrame := ⟨["k"], [[.pyInt 1]]⟩

/-- The sheet titles the export requests for that table. -/
def c5Titles : List String :=
  match buildWorkbook [("Order/Detail:2024", c5Df)] false 50000 with
  | .ok wb => wb.sheets.map Sheet.title
  | .error _ => []

/-- The sheet-title constraint the spec quotes: at most 31 characters and
none of the forbidden characters. -/
def excelForbiddenChars : List Char := [':', '\\', '/', '?', '*', '[', ']']

def isValidSheetTitle (s : String) : Bool :=
  s.length ≤ 31 && s.toList.all (fun c => !(excelForbiddenChars.contains c))

def c5Sheet : Sheet := (dataSheetOf 50000 ("Order/Detail:2024", c5Df)).toOption.getD emptySheet

/-- The data-length scan of adjust_column_widths (lines 121-127 of
src/dumpdbinfo.py) for the cells below the header: each cell contributes
len(str(cell.value)); a cell whose textual form cannot be computed is
skipped by the try block, which is the same as contributing 0 to the
running maximum. -/
def strMaxLen (cells : List (Option Nat)) : Nat :=
  cells.foldl (fun m o => max m (o.getD 0)) 0

/-- adjust_column_widths (lines 112-134) for one column, over exact
rationals: the column is the header cell (textual length headerLen,
computed without a try at line 117) followed by the data cells; the loop at
lines 121-127 also visits the header cell, max_length is then raised to
header_length * 1.5 and the width is min(max_length + 2, max_width). -/
def adjustColumnWidth (headerLen : Nat) (rest : List (Option Nat)) (maxWidth : Rat) : Rat :=
  min (max ((((some headerLen :: rest).foldl (fun m o => max m (o.getD 0)) 0 : Nat) : Rat))
        ((headerLen : Rat) * (3 / 2)) + 2) maxWidth

/-- Python str.endswith, on strings as character lists: the suffix test. -/
def pyEndsWith (s suffix : List Char) : Bool := List.isSuffixOf suffix s

/-- os.path.join(a, b) for one separator character: b absolute replaces a;
otherwise b is appended, inserting the separator unless a is empty or
already ends with it. -/
def osPathJoin (sep : Char) (a b : List Char) : List Char :=
  if b.head? = some sep then b
  else if a = [] ∨ a.getLast? = some sep then a ++ b
  else a ++ sep :: b

/-- The directory resolution performed identically at lines 39-40 of
dump_db_info_to_csv and lines 193-194 of dump_db_info_to_excel:
if not output_dir.endswith(db_name): output_dir = os.path.join(output_dir,
db_name). -/
def resolveOutputDir (sep : Char) (outputDir dbName : List Char) : List Char :=
  if pyEndsWith outputDir dbName then outputDir
  else osPathJoin sep outputDir dbName

/-- One declared parameter of a Python function. -/
structure PyParam where
  name : String
  hasDefault : Bool
deriving DecidableEq, Repr

/-- The parameter list of dump_db_info_to_csv, line 11 of src/dumpdbinfo.py:
db_name, table_dataframes and output_dir have no default, sep does. -/
def dumpDbInfoToCsvParams : List PyParam :=
  [⟨"db_name", false⟩, ⟨"table_dataframes", false⟩, ⟨"output_dir", false⟩,
   ⟨"sep", true⟩]

/-- The parameter list of dump_db_info_to_excel, line 157. -/
def dumpDbInfoToExcelParams : List PyParam :=
  [⟨"db_name", false⟩, ⟨"table_dataframes", false⟩, ⟨"output_dir", false⟩,
   ⟨"include_record_count", true⟩, ⟨"max_records_per_table", true⟩]

/-- A call site: how many positional arguments it passes and which keyword
arguments it names. -/
structure PyCallSite where
  numPositional : Nat
  keywords : List String
deriving DecidableEq, Repr

/-- Line 20 of src/main.py:
dump_db_info_to_csv(table_df_metadata, output_dir_metadata, sep=...). -/
def mainCsvMetadataCall : PyCallSite := ⟨2, ["sep"]⟩

/-- Line 21 of src/main.py:
dump_db_info_to_excel(table_df_metadata, output_dir_metadata). -/
def mainExcelMetadataCall : PyCallSite := ⟨2, []⟩

/-- Python argument binding: a call binds only if it passes no more
positional arguments than there are parameters, names only declared
parameters, names no parameter that is already bound positionally, and
leaves no defaultless parameter without a value; otherwise the interpreter
raises TypeError at the call. -/
def callBindsOk (params : List PyParam) (c : PyCallSite) : Bool :=
  decide (c.numPositional ≤ params.length) &&
  c.keywords.all (fun k => (params.map PyParam.name).contains k) &&
  (params.take c.numPositional).all (fun p => !(c.keywords.contains p.name)) &&
  (params.drop c.numPositional).all (fun p => p.hasDefault || c.keywords.contains p.name)

/-- The defaultless parameters a call leaves without a value. -/
def unboundRequired (params : List PyParam) (c : PyCallSite) : List String :=
  ((params.drop c.numPositional).filter
    (fun p => !p.hasDefault && !(c.keywords.contains p.name))).map PyParam.name

/-- Running src/main.py with a reachable database and writable output
directories: get_db_info_metadata succeeds (external collaborator), then
line 20 calls dump_db_info_to_csv; when that call fails to bind, CPython
raises TypeError, the uncaught exception aborts the process with exit
status 1, and no output file has been written.  The branch where the call
binds is never taken, so nothing after line 20 needs to be modelled. -/
def mainExitStatus : Nat :=
  if callBindsOk dumpDbInfoToCsvParams mainCsvMetadataCall then 0 else 1

/-- C1: the spec states that cell coercion never raises and that any value
that is not a recognized scalar type is downgraded to its text form rather
than aborting the export.  The fallback branch indeed turns every
unrecognized object into text, but the date branch calls value.date() on a
plain datetime.date, which has no such attribute: coercion raises
AttributeError there and the export aborts. -/
theorem coercion_text_fallback_but_plain_date_raises :
    (∀ s : String, coerceCell (.pyOther s) = .ok (.cText s)) ∧
    coerceCell (.pyDate ⟨2024, 1, 1⟩) = .error .attributeError :=
  ⟨fun _ => rfl, rfl⟩

/-- C2: the spec maps integers, floats, booleans and nulls to themselves,
dates and timestamps to native date or time values, and everything else to
text.  All of that holds except for plain datetime.date inputs, on which the
code raises AttributeError instead of writing a native date value. -/
theorem coercion_mapping_eval :
    coerceCell (.pyInt 42) = .ok (.cInt 42) ∧
    coerceCell (.pyFloat "2.5") = .ok (.cFloat "2.5") ∧
    coerceCell (.pyBool true) = .ok (.cBool true) ∧
    coerceCell .pyNone = .ok .cNone ∧
    coerceCell (.pyTimestamp ⟨⟨2023, 5, 17⟩, 10, 30, 0⟩)
      = .ok (.cDateTime ⟨⟨2023, 5, 17⟩, 10, 30, 0⟩) ∧
    coerceCell (.pyDateTime ⟨⟨2023, 5, 17⟩, 10, 30, 0⟩)
      = .ok (.cDate ⟨2023, 5, 17⟩) ∧
    coerceCell (.pyOther "[1, 2]") = .ok (.cText "[1, 2]") ∧
    coerceCell (.pyDate ⟨2023, 5, 17⟩) = .error .attributeError :=
  ⟨rfl, rfl, rfl, rfl, rfl, rfl, rfl, rfl⟩

lemma mapExcept_ok_forall₂ {f : α → Except ε β} :
    ∀ {xs : List α} {ys : List β}, mapExcept f xs = .ok ys →
      List.Forall₂ (fun x y => f x = .ok y) xs ys := by
  intro xs
  induction xs with
  | nil =>
    intro ys h
    simp only [mapExcept, Except.ok.injEq] at h
    subst h
    exact .nil
  | cons x xs ih =>
    intro ys h
    unfold mapExcept at h
    cases hfx : f x with
    | error e => rw [hfx] at h; cases h
    | ok y =>
      rw [hfx] at h
      cases hm : mapExcept f xs with
      | error e => rw [hm] at h; cases h
      | ok ys2 =>
        rw [hm] at h
        cases h
        exact .cons hfx (ih hm)

lemma forall₂_map_eq {R : α → β → Prop} {f : α → γ} {g : β → γ}
    (hfg : ∀ a b, R a b → f a = g b) :
    ∀ {l₁ : List α} {l₂ : List β}, List.Forall₂ R l₁ l₂ → l₁.map f = l₂.map g := by
  intro l₁ l₂ h
  induction h with
  | nil => rfl
  | cons hr _ ih => simp only [List.map_cons, hfg _ _ hr, ih]

lemma buildWorkbook_ok {tables : List (String × DataFrame)} {ic : Bool}
    {cap : Int} {wb : XlsxWorkbook} (h : buildWorkbook tables ic cap = .ok wb) :
    ∃ ds, mapExcept (dataSheetOf cap) tables = .ok ds ∧
      wb = ⟨indexSheetOf tables ic :: ds⟩ := by
  unfold buildWorkbook at h
  cases hm : mapExcept (dataSheetOf cap) tables with
  | error e => rw [hm] at h; cases h
  | ok ds =>
    rw [hm] at h
    cases h
    exact ⟨ds, rfl, rfl⟩

lemma dataSheetOf_ok {cap : Int} {t : String × DataFrame} {s : Sheet}
    (h : dataSheetOf cap t = .ok s) :
    ∃ headerRow dataRows,
      mapExcept coerceCell (t.2.columns.map PyVal.pyStr) = .ok headerRow ∧
      mapExcept (fun r => mapExcept coerceCell r) (pandasHead cap t.2.records)
        = .ok dataRows ∧
      s = ⟨t.1, headerRow :: dataRows,
           [⟨1, t.2.columns.length + 1, "Tables", "A1", "Return to Tables"⟩],
           true⟩ := by
  unfold dataSheetOf at h
  cases hh : mapExcept coerceCell (t.2.columns.map PyVal.pyStr) with
  | error e => rw [hh] at h; cases h
  | ok headerRow =>
    rw [hh] at h
    cases hd : mapExcept (fun r => mapExcept coerceCell r) (pandasHead cap t.2.records) with
    | error e => rw [hd] at h; cases h
    | ok dataRows =>
      rw [hd] at h
      cases h
      exact ⟨headerRow, dataRows, rfl, rfl, rfl⟩

lemma pandasHead_length_of_nonneg {n : Int} (hn : 0 ≤ n) (xs : List (List PyVal)) :
    (pandasHead n xs).length = min xs.length n.toNat := by
  simp [pandasHead, hn, List.length_take, Nat.min_comm]

lemma dataSheetOf_rows_tail_length {cap : Int} {t : String × DataFrame} {s : Sheet}
    (hcap : 0 ≤ cap) (h : dataSheetOf cap t = .ok s) :
    s.rows.tail.length = min t.2.records.length cap.toNat := by
  obtain ⟨hr, dr, hh, hd, rfl⟩ := dataSheetOf_ok h
  have hlen := (mapExcept_ok_forall₂ hd).length_eq
  simp only [List.tail_cons]
  rw [← hlen, pandasHead_length_of_nonneg hcap]

lemma dataSheets_titles {tables : List (String × DataFrame)} {cap : Int}
    {ds : List Sheet} (hds : mapExcept (dataSheetOf cap) tables = .ok ds) :
    ds.map Sheet.title = tables.map Prod.fst := by
  symm
  exact forall₂_map_eq
    (fun t s hts => by obtain ⟨hr, dr, _, _, rfl⟩ := dataSheetOf_ok hts; rfl)
    (mapExcept_ok_forall₂ hds)

lemma indexLinksFrom_mem :
    ∀ (ts : List (String × DataFrame)) (row : Nat) (l : Hyperlink),
      l ∈ indexLinksFrom row ts →
        l.targetCell = "A1" ∧ l.targetSheet ∈ ts.map Prod.fst := by
  intro ts
  induction ts with
  | nil => intro row l h; cases h
  | cons t ts ih =>
    intro row l h
    rcases List.mem_cons.mp h with h1 | h2
    · subst h1; exact ⟨rfl, by simp⟩
    · obtain ⟨h3, h4⟩ := ih (row + 1) l h2
      exact ⟨h3, by simp [h4]⟩

lemma indexLinksFrom_targets :
    ∀ (ts : List (String × DataFrame)) (row : Nat),
      (indexLinksFrom row ts).map Hyperlink.targetSheet = ts.map Prod.fst := by
  intro ts
  induction ts with
  | nil => intro row; rfl
  | cons t ts ih => intro row; simp [indexLinksFrom, ih]

/-- C3: for every table, the number of data rows written to its sheet,
header row excluded, equals min of the record count and the cap: the code
truncates with dataframe.head(max_records_per_table) and writes each
remaining row once.  The statement is conditional on the export completing
(cell coercion can raise, see C1). -/
theorem data_rows_written_eq_min (tables : List (String × DataFrame))
    (ic : Bool) (cap : Int) (wb : XlsxWorkbook)
    (hcap : 0 ≤ cap) (hok : buildWorkbook tables ic cap = .ok wb) :
    List.Forall₂
      (fun (t : String × DataFrame) (s : Sheet) =>
        s.rows.tail.length = min t.2.records.length cap.toNat)
      tables wb.dataSheets := by
  obtain ⟨ds, hds, rfl⟩ := buildWorkbook_ok hok
  exact (mapExcept_ok_forall₂ hds).imp
    fun t s hts => dataSheetOf_rows_tail_length hcap hts

/-- C9: the workbook holds the index sheet first and then one data sheet per
table in mapping order, so it has one sheet more than there are tables.
Sheet titles are assumed not to collide with the index title Tables, since
on a collision the workbook library itself renames, outside this code. -/
theorem workbook_sheets_count_and_order (tables : List (String × DataFrame))
    (ic : Bool) (cap : Int) (wb : XlsxWorkbook)
    (hne : tables ≠ []) (hnc : "Tables" ∉ tables.map Prod.fst)
    (hok : buildWorkbook tables ic cap = .ok wb) :
    wb.sheets.map Sheet.title = "Tables" :: tables.map Prod.fst ∧
    wb.sheets.length = tables.length + 1 := by
  obtain ⟨ds, hds, rfl⟩ := buildWorkbook_ok hok
  have ht := dataSheets_titles hds
  have hlen : ds.length = tables.length := by
    have h2 := congrArg List.length ht
    simpa using h2
  constructor
  · simp only [List.map_cons]
    rw [ht]
    rfl
  · simp [hlen]

/-- C8: with includeRecordCount enabled, the count written on the index row
of each table is the length of the untruncated record list, whatever the cap
is: line 220 of src/dumpdbinfo.py reads len(dataframe) before any head()
truncation is applied. -/
theorem index_count_pre_truncation (tables : List (String × DataFrame))
    (cap : Int) (wb : XlsxWorkbook)
    (hok : buildWorkbook tables true cap = .ok wb) :
    wb.indexSheet.rows.tail
      = tables.map
          (fun t => [CellValue.cText t.1, CellValue.cInt (t.2.records.length : Int)]) := by
  obtain ⟨ds, hds, rfl⟩ := buildWorkbook_ok hok
  simp [XlsxWorkbook.indexSheet, indexSheetOf, indexBodyRow]

/-- C6: every hyperlink on the index sheet points at cell A1 of a sheet of
the workbook, every data sheet carries exactly one return hyperlink, placed
in row 1 in the column right after the last header column and pointing at
cell A1 of the Tables sheet, and the index links match the data sheets one
to one in order: a two-level star.  Sheet titles are assumed not to collide
with the index title Tables, since on a collision the workbook library
itself renames, outside this code. -/
theorem hyperlink_round_trip_star (tables : List (String × DataFrame))
    (ic : Bool) (cap : Int) (wb : XlsxWorkbook)
    (hok : buildWorkbook tables ic cap = .ok wb)
    (hnc : "Tables" ∉ tables.map Prod.fst) :
    wb.indexSheet.title = "Tables" ∧
    (∀ l ∈ wb.indexSheet.links,
        l.targetCell = "A1" ∧ l.targetSheet ∈ wb.sheets.map Sheet.title) ∧
    List.Forall₂
      (fun (t : String × DataFrame) (s : Sheet) =>
        s.links = [⟨1, t.2.columns.length + 1, "Tables", "A1", "Return to Tables"⟩])
      tables wb.dataSheets ∧
    wb.indexSheet.links.map Hyperlink.targetSheet = wb.dataSheets.map Sheet.title := by
  obtain ⟨ds, hds, rfl⟩ := buildWorkbook_ok hok
  have htitles := dataSheets_titles hds
  refine ⟨rfl, ?_, ?_, ?_⟩
  · intro l hl
    obtain ⟨h1, h2⟩ := indexLinksFrom_mem tables 2 l hl
    refine ⟨h1, ?_⟩
    simp only [List.map_cons]
    exact List.mem_cons_of_mem _ (by rw [htitles]; exact h2)
  · exact (mapExcept_ok_forall₂ hds).imp fun t s hts => by
      obtain ⟨hr, dr, _, _, rfl⟩ := dataSheetOf_ok hts; rfl
  · show (indexLinksFrom 2 tables).map Hyperlink.targetSheet = ds.map Sheet.title
    rw [indexLinksFrom_targets, htitles]

theorem data_rows_written_eq_min_witness :
    List.Forall₂
      (fun (t : String × DataFrame) (s : Sheet) =>
        s.rows.tail.length = min t.2.records.length (2 : Int).toNat)
      exTables exWb.dataSheets :=
  data_rows_written_eq_min exTables true 2 exWb (by decide) rfl

theorem workbook_sheets_count_and_order_witness :
    exWb.sheets.map Sheet.title = "Tables" :: exTables.map Prod.fst ∧
    exWb.sheets.length = exTables.length + 1 :=
  workbook_sheets_count_and_order exTables true 2 exWb (by decide) (by decide) rfl

theorem index_count_pre_truncation_witness :
    exWb.indexSheet.rows.tail
      = exTables.map
          (fun t => [CellValue.cText t.1, CellValue.cInt (t.2.records.length : Int)]) :=
  index_count_pre_truncation exTables 2 exWb rfl

theorem hyperlink_round_trip_star_witness :
    exWb.indexSheet.title = "Tables" ∧
    (∀ l ∈ exWb.indexSheet.links,
        l.targetCell = "A1" ∧ l.targetSheet ∈ exWb.sheets.map Sheet.title) ∧
    List.Forall₂
      (fun (t : String × DataFrame) (s : Sheet) =>
        s.links = [⟨1, t.2.columns.length + 1, "Tables", "A1", "Return to Tables"⟩])
      exTables exWb.dataSheets ∧
    exWb.indexSheet.links.map Hyperlink.targetSheet = exWb.dataSheets.map Sheet.title :=
  hyperlink_round_trip_star exTables true 2 exWb rfl (by decide)

/-- C5 counterexample: for the table named Order/Detail:2024 the export
requests exactly that string as the sheet title, unchanged, although it
violates the sheet-name constraints: no sanitization or truncation happens
at lines 232-233 of src/dumpdbinfo.py. -/
theorem sheet_name_not_sanitized_counterexample :
    c5Titles = ["Tables", "Order/Detail:2024"] ∧
    isValidSheetTitle "Order/Detail:2024" = false :=
  ⟨rfl, by decide⟩

/-- C5 amended: the title given to create_sheet is the raw table name: the
code contains no sanitization, truncation or collision-suffix logic at all,
so a name violating the spreadsheet constraints reaches the workbook
library as is. -/
theorem sheet_title_is_raw_table_name (cap : Int) (t : String × DataFrame)
    (s : Sheet) (h : dataSheetOf cap t = .ok s) : s.title = t.1 := by
  obtain ⟨hr, dr, _, _, rfl⟩ := dataSheetOf_ok h
  rfl

theorem sheet_title_is_raw_table_name_witness : c5Sheet.title = "Order/Detail:2024" :=
  sheet_title_is_raw_table_name 50000 ("Order/Detail:2024", c5Df) c5Sheet rfl

lemma foldl_max_getD :
    ∀ (cells : List (Option Nat)) (a : Nat),
      cells.foldl (fun m o => max m (o.getD 0)) a = max a (strMaxLen cells) := by
  intro cells
  induction cells with
  | nil => intro a; simp [strMaxLen]
  | cons c cs ih =>
    intro a
    have h1 := ih (max a (c.getD 0))
    have h2 := ih (max 0 (c.getD 0))
    simp only [strMaxLen, List.foldl_cons] at h1 h2 ⊢
    rw [h1, h2]
    omega

lemma adjustColumnWidth_eq (headerLen : Nat) (rest : List (Option Nat)) (maxWidth : Rat) :
    adjustColumnWidth headerLen rest maxWidth
      = min (max ((strMaxLen rest : Rat)) ((3 : Rat) / 2 * (headerLen : Rat)) + 2) maxWidth := by
  have h0 : (0 : Rat) ≤ (headerLen : Rat) := Nat.cast_nonneg _
  have hh : (headerLen : Rat) ≤ (headerLen : Rat) * (3 / 2) := by linarith
  have hfold : ((some headerLen :: rest).foldl (fun m o => max m (o.getD 0)) 0 : Nat)
      = max headerLen (strMaxLen rest) := by
    rw [List.foldl_cons, foldl_max_getD]
    simp
  have hmm : max (max (headerLen : Rat) ((strMaxLen rest : Nat) : Rat))
        ((headerLen : Rat) * (3 / 2))
      = max ((strMaxLen rest : Rat)) ((3 : Rat) / 2 * (headerLen : Rat)) := by
    apply le_antisymm
    · apply max_le (max_le ?_ ?_) ?_
      · exact le_trans hh (le_trans (le_of_eq (mul_comm _ _)) (le_max_right _ _))
      · exact le_max_left _ _
      · exact le_trans (le_of_eq (mul_comm _ _)) (le_max_right _ _)
    · apply max_le
      · exact le_trans (le_max_right _ _) (le_max_left _ _)
      · exact le_trans (le_of_eq (mul_comm _ _)) (le_max_right _ _)
  unfold adjustColumnWidth
  rw [hfold]
  rw [show ((max headerLen (strMaxLen rest) : Nat) : Rat)
      = max (headerLen : Rat) ((strMaxLen rest : Nat) : Rat) by push_cast; rfl]
  rw [hmm]

/-- C7: the width adjust_column_widths assigns to a column is exactly
min(max(L, 1.5 * headerLen) + 2, maxWidth), where L is the largest textual
length among the data cells of the column and an uncomputable textual form
counts as 0; the width therefore never exceeds the ceiling and is monotone
in the content length.  The header cell is also visited by the data scan,
but since headerLen is at most 1.5 * headerLen this never changes the
result, which is why the formula holds with L ranging over the data cells
only. -/
theorem column_width_formula (headerLen : Nat) (rest : List (Option Nat)) (maxWidth : Rat) :
    adjustColumnWidth headerLen rest maxWidth
      = min (max ((strMaxLen rest : Rat)) ((3 : Rat) / 2 * (headerLen : Rat)) + 2) maxWidth ∧
    adjustColumnWidth headerLen rest maxWidth ≤ maxWidth ∧
    (∀ rest2 : List (Option Nat), strMaxLen rest ≤ strMaxLen rest2 →
      adjustColumnWidth headerLen rest maxWidth
        ≤ adjustColumnWidth headerLen rest2 maxWidth) := by
  refine ⟨adjustColumnWidth_eq headerLen rest maxWidth, ?_, ?_⟩
  · rw [adjustColumnWidth_eq]
    exact min_le_right _ _
  · intro rest2 hle
    rw [adjustColumnWidth_eq, adjustColumnWidth_eq]
    apply min_le_min _ le_rfl
    apply add_le_add_right
    apply max_le_max _ le_rfl
    exact_mod_cast hle

theorem column_width_formula_witness :
    adjustColumnWidth 4 [some 3, none] 80 ≤ adjustColumnWidth 4 [some 9, none] 80 :=
  (column_width_formula 4 [some 3, none] 80).2.2 [some 9, none] (by decide)

lemma isSuffixOf_nil_left (l : List Char) : List.isSuffixOf ([] : List Char) l = true := by
  simp [List.isSuffixOf]

lemma isPrefixOf_self (l : List Char) : l.isPrefixOf l = true := by
  induction l with
  | nil => rfl
  | cons a as ih => simp [List.isPrefixOf, ih]

lemma isSuffixOf_self (l : List Char) : List.isSuffixOf l l = true := by
  simp [List.isSuffixOf, isPrefixOf_self]

/-- C10: in both dump functions the database subdirectory is appended to
output_dir exactly when output_dir does not end with the characters of
db_name; in particular an output_dir whose final characters merely happen to
spell db_name, such as exports/mydb_data for db_name data, is left alone and
the files land directly in it. -/
theorem output_dir_subdir_iff (sep : Char) (outputDir dbName : List Char) :
    (resolveOutputDir sep outputDir dbName = outputDir ↔
      pyEndsWith outputDir dbName = true) ∧
    resolveOutputDir '/' ("exports/mydb_data".toList) ("data".toList)
      = "exports/mydb_data".toList := by
  constructor
  · constructor
    · intro h
      by_contra hne
      have hb : pyEndsWith outputDir dbName = false := by
        cases hbv : pyEndsWith outputDir dbName
        · rfl
        · exact absurd hbv hne
      unfold resolveOutputDir at h
      rw [hb] at h
      simp only [Bool.false_eq_true, if_false] at h
      have hdb : dbName ≠ [] := by
        intro hnil
        subst hnil
        rw [pyEndsWith, isSuffixOf_nil_left] at hb
        cases hb
      unfold osPathJoin at h
      by_cases h1 : dbName.head? = some sep
      · rw [if_pos h1] at h
        rw [← h, pyEndsWith, isSuffixOf_self] at hb
        cases hb
      · rw [if_neg h1] at h
        by_cases h2 : outputDir = [] ∨ outputDir.getLast? = some sep
        · rw [if_pos h2] at h
          have h3 := congrArg List.length h
          simp only [List.length_append] at h3
          have h4 : dbName.length = 0 := by omega
          exact hdb (List.length_eq_zero.mp h4)
        · rw [if_neg h2] at h
          have h3 := congrArg List.length h
          simp only [List.length_append, List.length_cons] at h3
          omega
    · intro h
      unfold resolveOutputDir
      rw [h]
      simp
  · rfl

theorem output_dir_subdir_iff_witness :
    resolveOutputDir '/' ("exports/mydb_data".toList) ("data".toList)
      = "exports/mydb_data".toList :=
  (output_dir_subdir_iff '/' ("exports/mydb_data".toList) ("data".toList)).2

/-- C4: the spec promises that a run against a reachable database with
writable output directories writes one CSV per table and exits zero.  Line
20 of src/main.py passes only two positional arguments to
dump_db_info_to_csv, whose first three parameters have no defaults, so
output_dir stays unbound: every run raises TypeError and exits non-zero
before writing anything.  Line 21 misbinds dump_db_info_to_excel the same
way. -/
theorem main_entry_always_raises_type_error :
    callBindsOk dumpDbInfoToCsvParams mainCsvMetadataCall = false ∧
    unboundRequired dumpDbInfoToCsvParams mainCsvMetadataCall = ["output_dir"] ∧
    callBindsOk dumpDbInfoToExcelParams mainExcelMetadataCall = false ∧
    unboundRequired dumpDbInfoToExcelParams mainExcelMetadataCall = ["output_dir"] ∧
    mainExitStatus = 1 := by
  refine ⟨rfl, rfl, rfl, rfl, rfl⟩
